import Mathlib

/-!
Shallow embedding of the state-machine dispatch core of the
`design-discussion` repository (files `statemachine/tcpexample.h`,
`statemachine/chatbot.h`, `statemachine/nosingleton.h`).

Modelling conventions:
* Each C++ namespace becomes a Lean namespace (`tcp`, `chat`, `nosingleton`).
* A concrete state class becomes a constructor of an enumeration; the
  dynamic dispatch through the virtual table becomes a `match` on that
  enumeration, with one arm per overridden handler and a catch-all arm for
  the base-class default bodies.
* A raw C++ pointer that may be null is `Option`; `assert` failure is
  modelled by an operation returning `none`.
* Console output (the diagnostics written by the default handlers and the
  `Contents: (...)` echo) is returned as a `List String`.
* Console input consumed by `process_input` (a `getline` string or a
  `cin >> int` integer) is supplied as an explicit `ChatInput` event.
-/

/-- One unit of console input consumed by a `process_input` handler:
either a full line (`getline`) or an integer (`cin >> int`). -/
inductive ChatInput where
  | line (s : String)
  | num (n : Int)
  deriving DecidableEq, Repr

/-- The string a line-reading handler obtains from this input. -/
def ChatInput.getLine : ChatInput → String
  | .line s => s
  | .num n => toString n

/-- The integer an int-reading handler obtains from this input.
A non-numeric line leaves 0 in the target, as `cin >> int` does on
extraction failure since C++11. -/
def ChatInput.getInt : ChatInput → Int
  | .num n => n
  | .line s => (s.toInt?).getD 0

namespace tcp

/-- The concrete `TCPState` subclasses of `tcpexample.h`: the three
behavioural states of the book example plus the declared-but-behaviourless
states added to reflect the full TCP state set. -/
inductive TCPStateId where
  | Established | Listen | Closed
  | SynSent | SynRecieved | FinWait1 | FinWait2
  | CloseWait | Closing | LastAck | TimeWait
  deriving DecidableEq, Repr, Fintype

/-- The fixed request set of `TCPState` / `TCPConnection`. -/
inductive TCPEvent where
  | transmit | active_open | passive_open | close | synchronize | acknowledge | send
  deriving DecidableEq, Repr, Fintype

/-- The handler name as it appears in the default diagnostics. -/
def TCPEvent.name : TCPEvent → String
  | .transmit => "transmit"
  | .active_open => "active_open"
  | .passive_open => "passive_open"
  | .close => "close"
  | .synchronize => "synchronize"
  | .acknowledge => "acknowledge"
  | .send => "send"

/-- The diagnostic emitted by the base-class default body of a handler
(`std::cerr << "Error: current state does not implement TCPState::..."`).
The same string is produced whichever concrete state is current. -/
def TCPState.defaultMsg (e : TCPEvent) : String :=
  "Error: current state does not implement TCPState::" ++ e.name

/-- `TCPConnection`: `current_state_` is a raw non-owning pointer
(zero-initialised, hence `Option`), `is_server_` the private payload. -/
structure TCPConnection where
  current_state : Option TCPStateId
  is_server : Bool
  deriving DecidableEq, Repr

/-- `TCPEstablished::instance()` — address of a function-local static,
never null. -/
def TCPEstablished.instance_ : Option TCPStateId := some .Established

/-- `TCPListen::instance()`. -/
def TCPListen.instance_ : Option TCPStateId := some .Listen

/-- `TCPClosed::instance()`. -/
def TCPClosed.instance_ : Option TCPStateId := some .Closed

/-- `TCPConnection::change_state`: `assert(state)` then assign.  A null
argument fires the assertion (`none` result). -/
def TCPConnection.change_state (conn : TCPConnection) (state : Option TCPStateId) :
    Option TCPConnection :=
  match state with
  | some s => some { conn with current_state := some s }
  | none => none

/-- Which (state, event) pairs have an overriding handler in
`tcpexample.h` (the `override` declarations of the concrete classes; all
other pairs run the base-class default body). -/
def overridden : TCPStateId → TCPEvent → Bool
  | .Established, .transmit => true
  | .Established, .close => true
  | .Listen, .send => true
  | .Closed, .active_open => true
  | .Closed, .passive_open => true
  | _, _ => false

/-- Virtual dispatch of one event on a concrete state, acting on the
connection: the overriding bodies of `tcpexample.h`, with the base-class
default body as the catch-all arm.  First component `none` means an
assertion fired; second component is the `cerr` output. -/
def TCPState.handle (s : TCPStateId) (e : TCPEvent) (conn : TCPConnection) :
    Option TCPConnection × List String :=
  match s, e with
  | .Established, .transmit =>
      -- body: assert(context); "Do something with the stream"
      (some conn, [])
  | .Established, .close =>
      (conn.change_state TCPListen.instance_, [])
  | .Listen, .send =>
      -- the source calls change_state twice, both times to Established
      (match conn.change_state TCPEstablished.instance_ with
       | some c => c.change_state TCPEstablished.instance_
       | none => none, [])
  | .Closed, .active_open =>
      (match conn.change_state TCPEstablished.instance_ with
       | some c => c.change_state TCPEstablished.instance_
       | none => none, [])
  | .Closed, .passive_open =>
      (conn.change_state TCPListen.instance_, [])
  | _, _ =>
      (some conn, [TCPState.defaultMsg e])

/-- The public request interface of `TCPConnection`: forward the event to
the current state.  A null `current_state_` would be a null-pointer
dereference, modelled as `none`. -/
def TCPConnection.dispatch (conn : TCPConnection) (e : TCPEvent) :
    Option TCPConnection × List String :=
  match conn.current_state with
  | some s => TCPState.handle s e conn
  | none => (none, [])

/-- `TCPConnection::TCPConnection(bool)`: store the role and start in the
closed state via `change_state(TCPClosed::instance())`. -/
def TCPConnection.make (is_server : Bool) : Option TCPConnection :=
  TCPConnection.change_state { current_state := none, is_server := is_server }
    TCPClosed.instance_

end tcp

/-- Claim C1: a `TCPConnection` is constructed in `Closed`; from `Closed`,
`passive_open` moves it to `Listen`; from `Listen`, `send` moves it to
`Established`; from `Established`, `close` moves it back to `Listen` —
the sequence of the protocol transition table. -/
theorem tcp_protocol_table_trace (b : Bool) :
    tcp.TCPConnection.make b = some ⟨some .Closed, b⟩ ∧
    (tcp.TCPConnection.dispatch ⟨some .Closed, b⟩ .passive_open).1 =
      some ⟨some .Listen, b⟩ ∧
    (tcp.TCPConnection.dispatch ⟨some .Listen, b⟩ .send).1 =
      some ⟨some .Established, b⟩ ∧
    (tcp.TCPConnection.dispatch ⟨some .Established, b⟩ .close).1 =
      some ⟨some .Listen, b⟩ :=
  ⟨rfl, rfl, rfl, rfl⟩

/-- Claim C2: for every (state, event) pair without an overriding handler,
dispatch returns the connection unchanged (same current-state reference,
same payload), emits exactly the default does-not-implement diagnostic, and
the connection remains usable (no assertion fires). -/
theorem unhandled_event_noop_diagnostic (s : tcp.TCPStateId) (e : tcp.TCPEvent)
    (conn : tcp.TCPConnection) (hs : conn.current_state = some s)
    (h : tcp.overridden s e = false) :
    conn.dispatch e = (some conn, [tcp.TCPState.defaultMsg e]) := by
  obtain ⟨cs, b⟩ := conn
  have hcs : cs = some s := hs
  subst hcs
  cases s <;> cases e <;> first | rfl | simp [tcp.overridden] at h

/-- Witness for C2 at the concrete pair (Closed, acknowledge). -/
theorem unhandled_event_noop_diagnostic_witness :
    (⟨some .Closed, false⟩ : tcp.TCPConnection).current_state = some .Closed ∧
    tcp.overridden .Closed .acknowledge = false ∧
    tcp.TCPConnection.dispatch ⟨some .Closed, false⟩ .acknowledge =
      (some ⟨some .Closed, false⟩, [tcp.TCPState.defaultMsg .acknowledge]) :=
  ⟨rfl, rfl, unhandled_event_noop_diagnostic .Closed .acknowledge _ rfl rfl⟩

/-- Counterexample to claim C9: the default diagnostic does not identify
the current state.  The message emitted for an unhandled `transmit` in
`SynSent` is byte-identical to the one emitted in `FinWait1`, is not of the
claimed form "state X does not implement event Y", and reads
"Error: current state does not implement TCPState::transmit". -/
theorem default_diag_omits_state_name :
    (tcp.TCPConnection.dispatch ⟨some .SynSent, false⟩ .transmit).2 =
      (tcp.TCPConnection.dispatch ⟨some .FinWait1, false⟩ .transmit).2 ∧
    (tcp.TCPConnection.dispatch ⟨some .SynSent, false⟩ .transmit).2 ≠
      ["state SynSent does not implement event transmit"] ∧
    (tcp.TCPConnection.dispatch ⟨some .SynSent, false⟩ .transmit).2 =
      ["Error: current state does not implement TCPState::transmit"] :=
  ⟨rfl, by decide, by decide⟩

/-- Claim C9 as amended: for every (state, event) pair without an
overriding handler, the default diagnostic identifies the event (as the
base-class-qualified handler name) but refers to the state only
generically: it is the fixed string
"Error: current state does not implement TCPState::<event>", the same for
every current state. -/
theorem default_diag_event_only (s : tcp.TCPStateId) (e : tcp.TCPEvent) (b : Bool)
    (h : tcp.overridden s e = false) :
    (tcp.TCPConnection.dispatch ⟨some s, b⟩ e).2 =
      ["Error: current state does not implement TCPState::" ++ e.name] := by
  cases s <;> cases e <;> first | rfl | simp [tcp.overridden] at h

/-- Witness for the amended C9 at the concrete pair (SynRecieved, close). -/
theorem default_diag_event_only_witness :
    tcp.overridden .SynRecieved .close = false ∧
    (tcp.TCPConnection.dispatch ⟨some .SynRecieved, true⟩ .close).2 =
      ["Error: current state does not implement TCPState::" ++
        tcp.TCPEvent.name .close] :=
  ⟨rfl, default_diag_event_only .SynRecieved .close true rfl⟩

namespace chat

/-- The context-owned payload of `chatbot.h`. -/
structure Patient where
  name : String
  address : String
  age : Int
  height : Int
  deriving DecidableEq, Repr

/-- The concrete `State` subclasses of `chatbot.h` (each holds no data, so
a constructor per class is a faithful rendering of the per-class singleton
instances). -/
inductive ChatStateId where
  | StartState | MainMenuState
  | CollectNameState | CollectAddressState | CollectAgeState | CollectHeightState
  | EditNameState | EditAddressState | EditAgeState | EditHeightState
  | ConfirmInfoState | EditOptionsState | FinishedState
  deriving DecidableEq, Repr, Fintype

/-- `ChatBot`: current-state pointer plus private `Patient` payload.  The
constructor and every transition assign the address of a function-local
static (`...State::instance()`), which is never null, so the pointer is
modelled directly by a `ChatStateId` (the `assert(state)` in
`ChatBot::change_state` cannot fire in this variant). -/
structure ChatBot where
  current_state : ChatStateId
  patient : Patient
  deriving DecidableEq, Repr

/-- `State::change_state(bot, state)` / `ChatBot::change_state`. -/
def ChatBot.change_state (bot : ChatBot) (s : ChatStateId) : ChatBot :=
  { bot with current_state := s }

/-- `State::set_patient_name`. -/
def ChatBot.set_patient_name (bot : ChatBot) (name : String) : ChatBot :=
  { bot with patient := { bot.patient with name := name } }

/-- `State::set_patient_address`. -/
def ChatBot.set_patient_address (bot : ChatBot) (address : String) : ChatBot :=
  { bot with patient := { bot.patient with address := address } }

/-- `State::set_patient_age`. -/
def ChatBot.set_patient_age (bot : ChatBot) (age : Int) : ChatBot :=
  { bot with patient := { bot.patient with age := age } }

/-- `State::set_patient_height`. -/
def ChatBot.set_patient_height (bot : ChatBot) (height : Int) : ChatBot :=
  { bot with patient := { bot.patient with height := height } }

/-- `ChatBot::get_patient_info` — the read-only snapshot accessor. -/
def ChatBot.get_patient_info (bot : ChatBot) : Patient :=
  bot.patient

/-- `ChatBot::process_input()`: forward to the current state's
`process_input` override.  Every concrete state of `chatbot.h` overrides
`process_input`, so the base-class default body is never selected here.
The returned list is the console output of the handler. -/
def process_input (bot : ChatBot) (input : ChatInput) : ChatBot × List String :=
  match bot.current_state with
  | .StartState =>
      -- getline; echo the contents; go to the main menu
      (bot.change_state .MainMenuState,
       ["Contents: (" ++ input.getLine ++ ")"])
  | .MainMenuState =>
      -- switch (in): 1 add patient, 2 exit, default fall-through
      if input.getInt = 1 then (bot.change_state .CollectNameState, [])
      else if input.getInt = 2 then (bot.change_state .FinishedState, [])
      else (bot, [])
  | .CollectNameState =>
      ((bot.set_patient_name input.getLine).change_state .CollectAddressState, [])
  | .CollectAddressState =>
      ((bot.set_patient_address input.getLine).change_state .CollectAgeState, [])
  | .CollectAgeState =>
      ((bot.set_patient_age input.getInt).change_state .CollectHeightState, [])
  | .CollectHeightState =>
      ((bot.set_patient_height input.getInt).change_state .ConfirmInfoState, [])
  | .EditNameState =>
      ((bot.set_patient_name input.getLine).change_state .EditOptionsState, [])
  | .EditAddressState =>
      ((bot.set_patient_address input.getLine).change_state .EditOptionsState, [])
  | .EditAgeState =>
      ((bot.set_patient_age input.getInt).change_state .EditOptionsState, [])
  | .EditHeightState =>
      ((bot.set_patient_height input.getInt).change_state .EditOptionsState, [])
  | .ConfirmInfoState =>
      -- switch (in): 1 edit, 2 save and return to menu, default fall-through
      if input.getInt = 1 then (bot.change_state .EditOptionsState, [])
      else if input.getInt = 2 then (bot.change_state .MainMenuState, [])
      else (bot, [])
  | .EditOptionsState =>
      -- switch (in): 1-4 edit a field, 5 save and continue, default fall-through
      if input.getInt = 1 then (bot.change_state .EditNameState, [])
      else if input.getInt = 2 then (bot.change_state .EditAddressState, [])
      else if input.getInt = 3 then (bot.change_state .EditAgeState, [])
      else if input.getInt = 4 then (bot.change_state .EditHeightState, [])
      else if input.getInt = 5 then (bot.change_state .ConfirmInfoState, [])
      else (bot, [])
  | .FinishedState =>
      -- FinishedState::process_input has an empty body
      (bot, [])

/-- `ChatBot::ChatBot()`: start in `StartState`.  The `Patient` member is
default-constructed with indeterminate `int` fields, so the initial
payload is an arbitrary `p`. -/
def ChatBot.make (p : Patient) : ChatBot :=
  { current_state := .StartState, patient := p }

/-- `ChatBot::running()`: pointer comparison of the current state against
`FinishedState::instance()`. -/
def ChatBot.running (bot : ChatBot) : Bool :=
  bot.current_state != ChatStateId.FinishedState

/-- The driver loop's repeated `process_input` calls, fed with an explicit
input sequence (output discarded). -/
def run (bot : ChatBot) : List ChatInput → ChatBot
  | [] => bot
  | i :: rest => run (process_input bot i).1 rest

end chat

/-- Claim C4: from construction at `StartState` with any initial payload,
one arbitrary line, then main-menu selection 1, then the four
data-collection inputs name="Ada", address="1 Main St", age=30, height=170
end in `ConfirmInfoState` with the snapshot equal to exactly those four
values. -/
theorem chat_intake_trace (p : chat.Patient) (anyLine : String) :
    (chat.run (chat.ChatBot.make p)
      [.line anyLine, .num 1, .line "Ada", .line "1 Main St", .num 30, .num 170]
      ).current_state = .ConfirmInfoState ∧
    (chat.run (chat.ChatBot.make p)
      [.line anyLine, .num 1, .line "Ada", .line "1 Main St", .num 30, .num 170]
      ).get_patient_info =
      { name := "Ada", address := "1 Main St", age := 30, height := 170 } :=
  ⟨rfl, rfl⟩

/-- Claim C5: from `ConfirmInfoState`, selection 2 goes to `MainMenuState`
and selection 1 goes to `EditOptionsState` (payload untouched); from
`EditOptionsState`, selecting 3, entering age 31, then selecting 5 returns
to `ConfirmInfoState` with the age field set to 31 and the name, address
and height fields unchanged. -/
theorem chat_edit_age_frame (p : chat.Patient) :
    (chat.process_input ⟨.ConfirmInfoState, p⟩ (.num 2)).1 = ⟨.MainMenuState, p⟩ ∧
    (chat.process_input ⟨.ConfirmInfoState, p⟩ (.num 1)).1 = ⟨.EditOptionsState, p⟩ ∧
    chat.run ⟨.EditOptionsState, p⟩ [.num 3, .num 31, .num 5] =
      ⟨.ConfirmInfoState,
        { name := p.name, address := p.address, age := 31, height := p.height }⟩ :=
  ⟨rfl, rfl, rfl⟩

/-- Claim C6: from `MainMenuState`, selection 2 moves to `FinishedState`,
after which `running()` is false; and for every bot, `running()` is false
exactly when the current state is `FinishedState`. -/
theorem chat_exit_terminal (p : chat.Patient) :
    (chat.process_input ⟨.MainMenuState, p⟩ (.num 2)).1.current_state =
      .FinishedState ∧
    (chat.process_input ⟨.MainMenuState, p⟩ (.num 2)).1.running = false ∧
    ∀ bot : chat.ChatBot,
      bot.running = false ↔ bot.current_state = .FinishedState := by
  refine ⟨rfl, rfl, ?_⟩
  intro bot
  simp [chat.ChatBot.running, bne_eq_false_iff_eq]

/-- Claim C10: in the three menu-driven states, an integer selection that
matches no listed option is a silent no-op: the `switch` falls through to
an empty `default`, so the state and the patient payload are unchanged and
no output is produced. -/
theorem menu_unlisted_selection_noop (bot : chat.ChatBot) (n : Int)
    (h : (bot.current_state = .MainMenuState ∧ n ≠ 1 ∧ n ≠ 2) ∨
         (bot.current_state = .ConfirmInfoState ∧ n ≠ 1 ∧ n ≠ 2) ∨
         (bot.current_state = .EditOptionsState ∧
           n ≠ 1 ∧ n ≠ 2 ∧ n ≠ 3 ∧ n ≠ 4 ∧ n ≠ 5)) :
    chat.process_input bot (.num n) = (bot, []) := by
  obtain ⟨s, p⟩ := bot
  rcases h with ⟨hs, h1, h2⟩ | ⟨hs, h1, h2⟩ | ⟨hs, h1, h2, h3, h4, h5⟩ <;>
    (replace hs : s = _ := hs; subst hs) <;>
    simp [chat.process_input, ChatInput.getInt, h1, h2]
  simp [h3, h4, h5]

/-- Witness for C10: selection 7 at the main menu with a concrete payload. -/
theorem menu_unlisted_selection_noop_witness :
    ((7 : Int) ≠ 1 ∧ (7 : Int) ≠ 2) ∧
    chat.process_input ⟨.MainMenuState, ⟨"", "", 0, 0⟩⟩ (.num 7) =
      (⟨.MainMenuState, ⟨"", "", 0, 0⟩⟩, []) :=
  ⟨⟨by decide, by decide⟩,
    menu_unlisted_selection_noop ⟨.MainMenuState, ⟨"", "", 0, 0⟩⟩ 7
      (Or.inl ⟨rfl, by decide, by decide⟩)⟩

namespace nosingleton

/-- The closed `StateName` enumeration of `nosingleton.h`. -/
inductive StateName where
  | StartState | MainMenuState
  | CollectNameState | CollectAddressState | CollectAgeState | CollectHeightState
  | EditNameState | EditAddressState | EditAgeState | EditHeightState
  | ConfirmInfoState | EditOptionsState | FinishedState
  deriving DecidableEq, Repr, Fintype

/-- The thirteen state-instance members owned by `StateSet`.  A value of
this type stands for the address of the corresponding member, which also
carries the dynamic type that virtual dispatch selects on. -/
inductive MemberState where
  | start_state_ | main_menu_state_
  | collect_name_state_ | collect_address_state_
  | collect_age_state_ | collect_height_state_
  | edit_name_state_ | edit_address_state_
  | edit_age_state_ | edit_height_state_
  | confirm_info_state_ | edit_options_state_ | finished_state_
  deriving DecidableEq, Repr, Fintype

/-- The `states_` map as filled by the `StateSet` constructor, one entry
per assignment, in source order.  (The local variables declared further
down in the constructor body only shadow the members after these
assignments and are dead; at the point of each assignment the names still
denote the members, so the map holds the member addresses.) -/
def states_ : List (StateName × MemberState) :=
  [(.StartState, .start_state_),
   (.MainMenuState, .main_menu_state_),
   (.CollectNameState, .collect_name_state_),
   (.CollectAddressState, .collect_address_state_),
   (.CollectAgeState, .collect_age_state_),
   (.CollectHeightState, .collect_height_state_),
   (.EditNameState, .edit_name_state_),
   (.EditAddressState, .edit_address_state_),
   (.EditAgeState, .edit_age_state_),
   (.EditHeightState, .edit_height_state_),
   (.ConfirmInfoState, .confirm_info_state_),
   (.EditOptionsState, .edit_options_state_),
   (.FinishedState, .finished_state_)]

/-- `StateSet::get_state`: look the name up in `states_`.  A missing entry
fires `assert(iter != states_.end())`, modelled as `none`; the second
assertion (`assert(state)`) cannot fire because every stored pointer is
the address of a member. -/
def get_state (name : StateName) : Option MemberState :=
  states_.lookup name

/-- The context-owned payload (same record as the `chat` variant). -/
structure Patient where
  name : String
  address : String
  age : Int
  height : Int
  deriving DecidableEq, Repr

/-- `ChatBot` of `nosingleton.h`: a raw current-state pointer
(zero-initialised, hence `Option`) and the private `Patient` payload.  The
`state_set_` member is the registry built above (`get_state`). -/
structure ChatBot where
  current_state : Option MemberState
  patient : Patient
  deriving DecidableEq, Repr

/-- `ChatBot::change_state(StateName)`: resolve through the state set and
assign; `assert(current_state_)` then passes.  `none` means the lookup
assertion inside `get_state` fired. -/
def ChatBot.change_state (bot : ChatBot) (name : StateName) : Option ChatBot :=
  match get_state name with
  | some st => some { bot with current_state := some st }
  | none => none

/-- `State::set_patient_name`. -/
def ChatBot.set_patient_name (bot : ChatBot) (name : String) : ChatBot :=
  { bot with patient := { bot.patient with name := name } }

/-- `State::set_patient_address`. -/
def ChatBot.set_patient_address (bot : ChatBot) (address : String) : ChatBot :=
  { bot with patient := { bot.patient with address := address } }

/-- `State::set_patient_age`. -/
def ChatBot.set_patient_age (bot : ChatBot) (age : Int) : ChatBot :=
  { bot with patient := { bot.patient with age := age } }

/-- `State::set_patient_height`. -/
def ChatBot.set_patient_height (bot : ChatBot) (height : Int) : ChatBot :=
  { bot with patient := { bot.patient with height := height } }

/-- Virtual dispatch of `process_input` on the dynamic type of the current
state object, acting on the bot.  Every concrete state of `nosingleton.h`
overrides `process_input`; transitions go through
`ChatBot::change_state(StateName)` and may therefore fault (`none`) if a
lookup assertion fired. -/
def process_input (st : MemberState) (bot : ChatBot) (input : ChatInput) :
    Option (ChatBot × List String) :=
  match st with
  | .start_state_ =>
      (bot.change_state .MainMenuState).map fun b =>
        (b, ["Contents: (" ++ input.getLine ++ ")"])
  | .main_menu_state_ =>
      if input.getInt = 1 then
        (bot.change_state .CollectNameState).map fun b => (b, [])
      else if input.getInt = 2 then
        (bot.change_state .FinishedState).map fun b => (b, [])
      else some (bot, [])
  | .collect_name_state_ =>
      ((bot.set_patient_name input.getLine).change_state
        .CollectAddressState).map fun b => (b, [])
  | .collect_address_state_ =>
      ((bot.set_patient_address input.getLine).change_state
        .CollectAgeState).map fun b => (b, [])
  | .collect_age_state_ =>
      ((bot.set_patient_age input.getInt).change_state
        .CollectHeightState).map fun b => (b, [])
  | .collect_height_state_ =>
      ((bot.set_patient_height input.getInt).change_state
        .ConfirmInfoState).map fun b => (b, [])
  | .edit_name_state_ =>
      ((bot.set_patient_name input.getLine).change_state
        .EditOptionsState).map fun b => (b, [])
  | .edit_address_state_ =>
      ((bot.set_patient_address input.getLine).change_state
        .EditOptionsState).map fun b => (b, [])
  | .edit_age_state_ =>
      ((bot.set_patient_age input.getInt).change_state
        .EditOptionsState).map fun b => (b, [])
  | .edit_height_state_ =>
      ((bot.set_patient_height input.getInt).change_state
        .EditOptionsState).map fun b => (b, [])
  | .confirm_info_state_ =>
      if input.getInt = 1 then
        (bot.change_state .EditOptionsState).map fun b => (b, [])
      else if input.getInt = 2 then
        (bot.change_state .MainMenuState).map fun b => (b, [])
      else some (bot, [])
  | .edit_options_state_ =>
      if input.getInt = 1 then
        (bot.change_state .EditNameState).map fun b => (b, [])
      else if input.getInt = 2 then
        (bot.change_state .EditAddressState).map fun b => (b, [])
      else if input.getInt = 3 then
        (bot.change_state .EditAgeState).map fun b => (b, [])
      else if input.getInt = 4 then
        (bot.change_state .EditHeightState).map fun b => (b, [])
      else if input.getInt = 5 then
        (bot.change_state .ConfirmInfoState).map fun b => (b, [])
      else some (bot, [])
  | .finished_state_ => some (bot, [])

/-- `ChatBot::process_input()`: forward to the current state.  A null
`current_state_` would be a null-pointer dereference (`none`). -/
def ChatBot.dispatch (bot : ChatBot) (input : ChatInput) :
    Option (ChatBot × List String) :=
  match bot.current_state with
  | some st => process_input st bot input
  | none => none

/-- `ChatBot::ChatBot(StateSet*)`: start via `change_state(StartState)`;
the `Patient` member's `int` fields are indeterminate, hence arbitrary. -/
def ChatBot.make (p : Patient) : Option ChatBot :=
  ChatBot.change_state { current_state := none, patient := p } .StartState

/-- Whether dispatch succeeds and leaves a non-null current-state pointer
(used to state the preservation argument as a computation). -/
def dispatchOk (bot : ChatBot) (input : ChatInput) : Bool :=
  match bot.dispatch input with
  | some (b, _) => b.current_state.isSome
  | none => false

/-- Driving a single bot with a list of inputs (output discarded);
`none` as soon as an assertion fires. -/
def runOne (bot : ChatBot) : List ChatInput → Option ChatBot
  | [] => some bot
  | i :: rest =>
      match bot.dispatch i with
      | some (b, _) => runOne b rest
      | none => none

/-- Driving two bots that share the one state set with an interleaved,
tagged input sequence: `true` events go to the first bot, `false` events
to the second. -/
def runSys (bots : ChatBot × ChatBot) :
    List (Bool × ChatInput) → Option (ChatBot × ChatBot)
  | [] => some bots
  | (tag, i) :: rest =>
      if tag then
        match bots.1.dispatch i with
        | some (b, _) => runSys (b, bots.2) rest
        | none => none
      else
        match bots.2.dispatch i with
        | some (b, _) => runSys (bots.1, b) rest
        | none => none

end nosingleton

/-- Helper: dispatching any input on a bot whose current-state pointer is
set succeeds and leaves the pointer set (every handler either keeps the
state or assigns through `get_state`, which covers the enumeration). -/
theorem ns_dispatchOk (st : nosingleton.MemberState) (p : nosingleton.Patient)
    (input : ChatInput) :
    nosingleton.dispatchOk ⟨some st, p⟩ input = true := by
  cases st <;>
    first
      | rfl
      | (simp only [nosingleton.dispatchOk, nosingleton.ChatBot.dispatch,
           nosingleton.process_input];
         split_ifs <;> rfl)

/-- Helper: the existential form of `ns_dispatchOk`. -/
theorem ns_dispatch_some (bot : nosingleton.ChatBot) (input : ChatInput)
    (h : bot.current_state.isSome = true) :
    ∃ b out, bot.dispatch input = some (b, out) ∧
      b.current_state.isSome = true := by
  obtain ⟨cs, p⟩ := bot
  match cs, h with
  | some st, _ =>
    have hok := ns_dispatchOk st p input
    unfold nosingleton.dispatchOk at hok
    cases hd : nosingleton.ChatBot.dispatch ⟨some st, p⟩ input with
    | none => rw [hd] at hok; exact absurd hok (by decide)
    | some bo =>
      obtain ⟨b, out⟩ := bo
      rw [hd] at hok
      exact ⟨b, out, rfl, hok⟩

/-- Helper: unfolding `runOne` one step along a successful dispatch. -/
theorem ns_runOne_cons (bot b : nosingleton.ChatBot) (out : List String)
    (i : ChatInput) (rest : List ChatInput)
    (hd : bot.dispatch i = some (b, out)) :
    nosingleton.runOne bot (i :: rest) = nosingleton.runOne b rest := by
  simp only [nosingleton.runOne]
  rw [hd]

/-- Helper: unfolding `runSys` one step on a first-bot event. -/
theorem ns_runSys_true (b₁ b₂ b : nosingleton.ChatBot) (out : List String)
    (i : ChatInput) (rest : List (Bool × ChatInput))
    (hd : b₁.dispatch i = some (b, out)) :
    nosingleton.runSys (b₁, b₂) ((true, i) :: rest) =
      nosingleton.runSys (b, b₂) rest := by
  simp only [nosingleton.runSys]
  rw [hd]
  simp

/-- Helper: unfolding `runSys` one step on a second-bot event. -/
theorem ns_runSys_false (b₁ b₂ b : nosingleton.ChatBot) (out : List String)
    (i : ChatInput) (rest : List (Bool × ChatInput))
    (hd : b₂.dispatch i = some (b, out)) :
    nosingleton.runSys (b₁, b₂) ((false, i) :: rest) =
      nosingleton.runSys (b₁, b) rest := by
  simp only [nosingleton.runSys]
  rw [hd]
  simp

/-- Claim C3: `get_state` succeeds for every `StateName` of the closed
enumeration (the assertions cannot fire), each name resolves to exactly
one instance, and distinct names resolve to distinct instances — the
constructor-built map covers the enumeration with referential stability. -/
theorem stateset_total_coverage_stable :
    (∀ name : nosingleton.StateName,
       (nosingleton.get_state name).isSome = true) ∧
    (∀ (name : nosingleton.StateName) (m₁ m₂ : nosingleton.MemberState),
       nosingleton.get_state name = some m₁ →
       nosingleton.get_state name = some m₂ → m₁ = m₂) ∧
    (∀ n₁ n₂ : nosingleton.StateName,
       nosingleton.get_state n₁ = nosingleton.get_state n₂ → n₁ = n₂) :=
  ⟨by decide, by decide, by decide⟩

/-- Witness for C3 at the concrete name `StartState`. -/
theorem stateset_total_coverage_stable_witness :
    (nosingleton.get_state .StartState).isSome = true ∧
    nosingleton.MemberState.start_state_ = nosingleton.MemberState.start_state_ :=
  ⟨stateset_total_coverage_stable.1 .StartState,
   stateset_total_coverage_stable.2.1 .StartState _ _ rfl rfl⟩

/-- Claim C7: driving two contexts that share one state set with an
interleaved tagged event sequence gives each context exactly the state and
payload it would have from its own events alone — neither context's
dispatches change the other. -/
theorem contexts_isolated (evs : List (Bool × ChatInput))
    (b₁ b₂ : nosingleton.ChatBot)
    (h₁ : b₁.current_state.isSome = true)
    (h₂ : b₂.current_state.isSome = true) :
    ∃ c₁ c₂, nosingleton.runSys (b₁, b₂) evs = some (c₁, c₂) ∧
      nosingleton.runOne b₁
        ((evs.filter fun ev => ev.1).map fun ev => ev.2) = some c₁ ∧
      nosingleton.runOne b₂
        ((evs.filter fun ev => !ev.1).map fun ev => ev.2) = some c₂ := by
  induction evs generalizing b₁ b₂ with
  | nil => exact ⟨b₁, b₂, rfl, rfl, rfl⟩
  | cons ev rest ih =>
    obtain ⟨tag, i⟩ := ev
    cases tag
    · obtain ⟨b, out, hd, hb⟩ := ns_dispatch_some b₂ i h₂
      obtain ⟨c₁, c₂, hsys, hr1, hr2⟩ := ih b₁ b h₁ hb
      refine ⟨c₁, c₂, ?_, ?_, ?_⟩
      · rw [ns_runSys_false b₁ b₂ b out i rest hd]; exact hsys
      · exact hr1
      · show nosingleton.runOne b₂
            (i :: (rest.filter fun ev => !ev.1).map fun ev => ev.2) = some c₂
        rw [ns_runOne_cons b₂ b out i _ hd]; exact hr2
    · obtain ⟨b, out, hd, hb⟩ := ns_dispatch_some b₁ i h₁
      obtain ⟨c₁, c₂, hsys, hr1, hr2⟩ := ih b b₂ hb h₂
      refine ⟨c₁, c₂, ?_, ?_, ?_⟩
      · rw [ns_runSys_true b₁ b₂ b out i rest hd]; exact hsys
      · show nosingleton.runOne b₁
            (i :: (rest.filter fun ev => ev.1).map fun ev => ev.2) = some c₁
        rw [ns_runOne_cons b₁ b out i _ hd]; exact hr1
      · exact hr2

/-- Witness for C7: two concrete bots on the shared state set, one driven
with a line event, the other with a menu selection. -/
theorem contexts_isolated_witness :
    ∃ c₁ c₂,
      nosingleton.runSys
        (⟨some .start_state_, ⟨"", "", 0, 0⟩⟩,
         ⟨some .confirm_info_state_, ⟨"x", "y", 1, 2⟩⟩)
        [(true, .line "hello"), (false, .num 2)] = some (c₁, c₂) ∧
      nosingleton.runOne ⟨some .start_state_, ⟨"", "", 0, 0⟩⟩
        [.line "hello"] = some c₁ ∧
      nosingleton.runOne ⟨some .confirm_info_state_, ⟨"x", "y", 1, 2⟩⟩
        [.num 2] = some c₂ :=
  contexts_isolated [(true, .line "hello"), (false, .num 2)] _ _ rfl rfl

/-- Claim C8: a freshly constructed context has a non-null current-state
reference to a registry-owned instance, and every dispatch preserves this:
no null-state assertion can fire on a constructed context (shown for the
`TCPConnection` of `tcpexample.h` and the registry-based `ChatBot` of
`nosingleton.h`). -/
theorem constructed_state_never_null :
    (∀ b : Bool, ∃ c : tcp.TCPConnection,
       tcp.TCPConnection.make b = some c ∧ c.current_state.isSome = true) ∧
    (∀ (c : tcp.TCPConnection) (e : tcp.TCPEvent),
       c.current_state.isSome = true →
       ∃ c', (c.dispatch e).1 = some c' ∧ c'.current_state.isSome = true) ∧
    (∀ p : nosingleton.Patient, ∃ bot : nosingleton.ChatBot,
       nosingleton.ChatBot.make p = some bot ∧
       bot.current_state.isSome = true) ∧
    (∀ (bot : nosingleton.ChatBot) (input : ChatInput),
       bot.current_state.isSome = true →
       ∃ b out, bot.dispatch input = some (b, out) ∧
         b.current_state.isSome = true) := by
  refine ⟨fun b => ⟨⟨some .Closed, b⟩, rfl, rfl⟩, ?_,
    fun p => ⟨⟨some .start_state_, p⟩, rfl, rfl⟩,
    fun bot input h => ns_dispatch_some bot input h⟩
  intro c e h
  obtain ⟨cs, b⟩ := c
  match cs, h with
  | some s, _ => cases s <;> cases e <;> exact ⟨_, rfl, rfl⟩

/-- Witness for C8: one dispatch on each machine from a concrete
constructed context. -/
theorem constructed_state_never_null_witness :
    ((⟨some .Closed, false⟩ : tcp.TCPConnection).current_state.isSome = true ∧
      ∃ c', (tcp.TCPConnection.dispatch ⟨some .Closed, false⟩ .passive_open).1 =
        some c' ∧ c'.current_state.isSome = true) ∧
    ((⟨some .start_state_, ⟨"", "", 0, 0⟩⟩ :
        nosingleton.ChatBot).current_state.isSome = true ∧
      ∃ b out, nosingleton.ChatBot.dispatch
          ⟨some .start_state_, ⟨"", "", 0, 0⟩⟩ (.line "hi") = some (b, out) ∧
        b.current_state.isSome = true) :=
  ⟨⟨rfl, constructed_state_never_null.2.1 ⟨some .Closed, false⟩ .passive_open rfl⟩,
   ⟨rfl, constructed_state_never_null.2.2.2
      ⟨some .start_state_, ⟨"", "", 0, 0⟩⟩ (.line "hi") rfl⟩⟩
